import Mathlib

/-!
Shallow embedding of the astrometrics typed-quantity library.

Magnitudes (the library's internal floating type) are modelled as exact
rationals; the physical constants are the exact decimal values from the
source.  Ordering uses Lean's `compare`, which on finite values agrees with
the total-order comparison the source uses for its magnitudes.
-/

set_option maxRecDepth 4000

namespace Astrometrics

/-- The source compares magnitudes with the total-order comparison on the
floating type; on the finite values modelled here that is the ordinary
linear-order comparison. -/
def qcmp (a b : ℚ) : Ordering :=
  if a < b then .lt else if a = b then .eq else .gt

theorem qcmp_eq_iff {a b : ℚ} : qcmp a b = .eq ↔ a = b := by
  unfold qcmp
  split
  case isTrue h => simp [ne_of_lt h]
  case isFalse h =>
    split
    case isTrue h2 => simp [h2]
    case isFalse h2 => simp [h2]

theorem qcmp_lt_iff {a b : ℚ} : qcmp a b = .lt ↔ a < b := by
  unfold qcmp
  split
  case isTrue h => simp [h]
  case isFalse h =>
    split
    case isTrue h2 => simp [h2, lt_irrefl]
    case isFalse h2 => simp [h]

theorem qcmp_gt_iff {a b : ℚ} : qcmp a b = .gt ↔ b < a := by
  unfold qcmp
  split
  case isTrue h => simp [lt_asymm h]
  case isFalse h =>
    split
    case isTrue h2 => simp [h2, lt_irrefl]
    case isFalse h2 =>
      exact iff_of_true rfl (lt_of_le_of_ne (not_lt.mp h) (Ne.symm h2))

/-! ## Mass family (src/mass/mass.rs) -/

inductive Mass
| G (v : ℚ)
| Kg (v : ℚ)
| ME (v : ℚ)
| MJ (v : ℚ)
| MO (v : ℚ)
deriving DecidableEq, Repr

def SOL_KG : ℚ := 198847 * 10 ^ 25
def JUP_KG : ℚ := 189813 * 10 ^ 22
def EARTH_KG : ℚ := 59722 * 10 ^ 20

def g_to_kg (g : ℚ) : ℚ := g / 1000
def kg_to_g (kg : ℚ) : ℚ := kg * 1000
def ratio (num denom : ℚ) : ℚ := num / denom

def Mass.mo : Mass → Mass
| .MO v => .MO v
| .MJ v => .MO (v * ratio JUP_KG SOL_KG)
| .ME v => .MO (v * ratio EARTH_KG SOL_KG)
| .Kg v => .MO (v * SOL_KG)
| .G v => .MO (v * kg_to_g SOL_KG)

def Mass.mj : Mass → Mass
| .MO v => .MJ (v * ratio SOL_KG JUP_KG)
| .MJ v => .MJ v
| .ME v => .MJ (v * ratio EARTH_KG JUP_KG)
| .Kg v => .MJ (v * JUP_KG)
| .G v => .MJ (v / kg_to_g JUP_KG)

def Mass.me : Mass → Mass
| .MO v => .ME (v * ratio SOL_KG EARTH_KG)
| .MJ v => .ME (v * ratio JUP_KG EARTH_KG)
| .ME v => .ME v
| .Kg v => .ME (v / EARTH_KG)
| .G v => .ME (v / kg_to_g EARTH_KG)

def Mass.kg : Mass → Mass
| .MO v => .Kg (v * SOL_KG)
| .MJ v => .Kg (v * JUP_KG)
| .ME v => .Kg (v * EARTH_KG)
| .Kg v => .Kg v
| .G v => .Kg (g_to_kg v)

def Mass.g : Mass → Mass
| .MO v => .G (v * kg_to_g SOL_KG)
| .MJ v => .G (v * kg_to_g JUP_KG)
| .ME v => .G (v * kg_to_g EARTH_KG)
| .Kg v => .G (kg_to_g v)
| .G v => .G v

def Mass.raw : Mass → ℚ
| .MO v | .MJ v | .ME v | .Kg v | .G v => v

def Mass.set : Mass → ℚ → Mass
| .MO _, t => .MO t
| .MJ _, t => .MJ t
| .ME _, t => .ME t
| .Kg _, t => .Kg t
| .G _, t => .G t

def Mass.rank : Mass → Nat
| .MO _ => 5
| .MJ _ => 4
| .ME _ => 3
| .Kg _ => 2
| .G _ => 1

/-- The per-shape conversion dispatch used inside `Mass.unify`. -/
def Mass.cnvLike (shape x : Mass) : Mass :=
  match shape with
  | .MO _ => x.mo
  | .MJ _ => x.mj
  | .ME _ => x.me
  | .Kg _ => x.kg
  | .G _ => x.g

def Mass.unify (a b : Mass) : Mass × Mass :=
  match compare a.rank b.rank with
  | .gt => (a, Mass.cnvLike a b)
  | .lt => (Mass.cnvLike b a, b)
  | .eq => (a, b)

def Mass.pcmp (a b : Mass) : Option Ordering :=
  let p := a.unify b
  some (qcmp p.1.raw p.2.raw)

def Mass.meq (a b : Mass) : Bool := a.pcmp b == some .eq

/-- The four primitive-operand operators from define_prim_ops_for_mass,
parameterised by the scalar operation (the macro stamps out one identical
body per operator and numeric width). -/
def massPrimCalc (f : ℚ → ℚ → ℚ) (m : Mass) (r : ℚ) : Mass :=
  m.set (f m.raw r)

/-- The quantity-by-quantity operators from define_ops_for_mass: the rhs is
passed to the primitive operator as its bare raw magnitude. -/
def massQCalc (f : ℚ → ℚ → ℚ) (a b : Mass) : Mass :=
  massPrimCalc f a b.raw


/-! ## Temperature family (src/temperature.rs, src/temperature/k.rs)

`D` is the white dwarf, `N` the neutron star and `X` the black hole
sentinel; `K`/`C` carry a Kelvin/Celsius magnitude.  `raw` returns
`none` for the black hole, standing for the NaN of the source. -/

inductive Temperature
| D
| N
| X
| K (v : ℚ)
| C (v : ℚ)
deriving DecidableEq, Repr

def K_C_DELTA : ℚ := 5463 / 20

def K_NEUTRON : Temperature := .K 1000000

def K_WDWARF : Temperature := .K 100000

/-- Black hole temperature is NaN in the source, `none` here. -/
def Temperature.raw : Temperature → Option ℚ
| .C v | .K v => some v
| .D => some 100000
| .N => some 1000000
| .X => none

def Temperature.set : Temperature → ℚ → Temperature
| .C _, t => .C t
| .K _, t => .K t
| .D, _ => .D
| .N, _ => .N
| .X, _ => .X

/-- The primitive-operand operators the defo macro stamps out for
Temperature: store the scalar result, which on a sentinel is a no-op.
A NaN lhs (the black hole) would store NaN through the no-op `set`,
so the `none` branch likewise returns the value unchanged. -/
def tempPrimCalc (f : ℚ → ℚ → ℚ) (t : Temperature) (r : ℚ) : Temperature :=
  match t.raw with
  | some v => t.set (f v r)
  | none => t

/-- Kelvin conversion; the source's Celsius branch recurses through
`K(v - K_C_DELTA).k()`, which lands in the clamped Kelvin branch. -/
def Temperature.k : Temperature → Temperature
| .K v => .K (max v 0)
| .C v => .K (max (v - K_C_DELTA) 0)
| .N => K_NEUTRON
| .D => K_WDWARF
| .X => .X

/-- Celsius conversion.  The sentinel branches evaluate the source's
`K_NEUTRON - K_C_DELTA`, i.e. the primitive subtraction on a Kelvin value
(both the N and the D branch use the neutron-star constant). -/
def Temperature.c : Temperature → Temperature
| .C v => .C (max v (-K_C_DELTA))
| .K v => .C (max v 0 + K_C_DELTA)
| .N => tempPrimCalc (· - ·) K_NEUTRON K_C_DELTA
| .D => tempPrimCalc (· - ·) K_NEUTRON K_C_DELTA
| .X => .X

def Temperature.cnvInto (t other : Temperature) : Temperature :=
  match other with
  | .X => .X
  | .N => match t with
          | .X => .X
          | _ => .N
  | .D => match t with
          | .X => .X
          | .N => .N
          | _ => .D
  | .C _ => t.c
  | .K _ => t.k

/-- The quantity-by-quantity operators the defo macro stamps out for
Temperature: the rhs is converted into the lhs's variant shape first.
The case in which a numeric lhs meets a NaN rhs magnitude (rhs is the
black hole) stores NaN in the source and is outside the rational model;
the theorems below exclude it by hypothesis. -/
def tempQCalc (f : ℚ → ℚ → ℚ) (a b : Temperature) : Temperature :=
  match a.raw, (b.cnvInto a).raw with
  | some va, some vb => a.set (f va vb)
  | _, _ => a

/-- The recursive call sites of eq: compare the Kelvin conversion of a
non-black-hole value against a sentinel's constant. -/
def Temperature.kConstEq (x : Temperature) (cst : ℚ) : Bool :=
  match x.k with
  | .K v => v == cst
  | _ => false

/-- The Kelvin-converted magnitude used by the sentinel ordering arms;
every call site has already filtered out the black hole. -/
def Temperature.rawK (x : Temperature) : ℚ :=
  match x.k with
  | .K v => v
  | _ => 0

/-- PartialEq::eq for Temperature, arm for arm from the source match. -/
def Temperature.teq : Temperature → Temperature → Bool
| .X, _ => false
| _, .X => false
| .N, x => Temperature.kConstEq x 1000000
| x, .N => Temperature.kConstEq x 1000000
| .D, x => Temperature.kConstEq x 100000
| x, .D => Temperature.kConstEq x 100000
| .C a, .C b => a == b
| .K a, .K b => a == b
| .K a, .C b => a == b - K_C_DELTA
| .C b, .K a => a == b - K_C_DELTA

/-- PartialEq::ne for Temperature (overridden: false whenever a black
hole is present, otherwise the negation of eq). -/
def Temperature.tne : Temperature → Temperature → Bool
| .X, _ => false
| _, .X => false
| a, b => !(a.teq b)

/-- PartialOrd::partial_cmp for Temperature, arm for arm from the source
match (note the source compares the non-sentinel operand against the
sentinel constant in the same direction on both sides). -/
def Temperature.pcmp : Temperature → Temperature → Option Ordering
| .X, _ => none
| _, .X => none
| .N, .N => some .eq
| .D, .D => some .eq
| .N, .D => some .gt
| .D, .N => some .lt
| .N, x => some (qcmp x.rawK 1000000)
| x, .N => some (qcmp x.rawK 1000000)
| .D, x => some (qcmp x.rawK 100000)
| x, .D => some (qcmp x.rawK 100000)
| .C a, .C b => some (qcmp a b)
| .K a, .K b => some (qcmp a b)
| .C c, .K k => some (qcmp (c - K_C_DELTA) k)
| .K k, .C c => some (qcmp k (c - K_C_DELTA))

/-- PartialEq of a Temperature against a raw number (defo @impl_it):
total-cmp of raw() against the number; NaN (the black hole) is never
total-cmp-equal to a number. -/
def Temperature.primEq (t : Temperature) (n : ℚ) : Bool :=
  match t.raw with
  | some v => v == n
  | none => false

/-- ne against a raw number is not overridden, so it is the default
negation of eq. -/
def Temperature.primNe (t : Temperature) (n : ℚ) : Bool :=
  !(t.primEq n)

/-- partial_cmp of a Temperature against a raw number: always a Some of
the total comparison; the positive NaN of the black hole sorts above
every number under total_cmp. -/
def Temperature.primPcmp (t : Temperature) (n : ℚ) : Option Ordering :=
  some (match t.raw with
        | some v => qcmp v n
        | none => Ordering.gt)

/-- partial_cmp of a raw number against a Temperature. -/
def Temperature.primPcmpRev (n : ℚ) (t : Temperature) : Option Ordering :=
  some (match t.raw with
        | some v => qcmp n v
        | none => Ordering.lt)

def Temperature.isSentinel : Temperature → Bool
| .D | .N | .X => true
| .K _ | .C _ => false

/-- Constructor index, used to state that an operation preserves the
variant tag. -/
def Temperature.ctorIdx : Temperature → Nat
| .D => 0
| .N => 1
| .X => 2
| .K _ => 3
| .C _ => 4


/-! ## SpatialLength family (src/spatial.rs, src/spatial/iau.rs) -/

inductive SpatialUnit
| M (v : ℚ)
| Au (v : ℚ)
| Ly (v : ℚ)
| RE (v : ℚ)
| RO (v : ℚ)
| Pc (v : ℚ)
deriving DecidableEq, Repr

def AU_METERS : ℚ := 149597870700
def LY_METERS : ℚ := 94607 * 10 ^ 11
def PARSEC_METERS : ℚ := 3085677581 * 10 ^ 7
def R_SUN_METERS : ℚ := 695700000
def R_EARTH_METERS : ℚ := 6378100

def SpatialUnit.m : SpatialUnit → SpatialUnit
| .M v => .M v
| .RE v => .M (v * R_EARTH_METERS)
| .RO v => .M (v * R_SUN_METERS)
| .Au v => .M (v * AU_METERS)
| .Ly v => .M (v * LY_METERS)
| .Pc v => .M (v * PARSEC_METERS)

def SpatialUnit.re : SpatialUnit → SpatialUnit
| .M v => .RE (ratio v R_EARTH_METERS)
| .RE v => .RE v
| .RO v => .RE (v * ratio R_SUN_METERS R_EARTH_METERS)
| .Au v => .RE (v * ratio AU_METERS R_EARTH_METERS)
| .Ly v => .RE (v * ratio LY_METERS R_EARTH_METERS)
| .Pc v => .RE (v * ratio PARSEC_METERS R_EARTH_METERS)

def SpatialUnit.ro : SpatialUnit → SpatialUnit
| .M v => .RO (ratio v R_SUN_METERS)
| .RE v => .RO (v * ratio R_EARTH_METERS R_SUN_METERS)
| .RO v => .RO v
| .Au v => .RO (v * ratio AU_METERS R_SUN_METERS)
| .Ly v => .RO (v * ratio LY_METERS R_SUN_METERS)
| .Pc v => .RO (v * ratio PARSEC_METERS R_SUN_METERS)

def SpatialUnit.au : SpatialUnit → SpatialUnit
| .M v => .Au (ratio v AU_METERS)
| .RE v => .Au (v * ratio R_EARTH_METERS AU_METERS)
| .RO v => .Au (v * ratio R_SUN_METERS AU_METERS)
| .Au v => .Au v
| .Ly v => .Au (v * ratio LY_METERS AU_METERS)
| .Pc v => .Au (v * ratio PARSEC_METERS AU_METERS)

def SpatialUnit.ly : SpatialUnit → SpatialUnit
| .M v => .Ly (ratio v LY_METERS)
| .RE v => .Ly (v * ratio R_EARTH_METERS LY_METERS)
| .RO v => .Ly (v * ratio R_SUN_METERS LY_METERS)
| .Au v => .Ly (v * ratio AU_METERS LY_METERS)
| .Ly v => .Ly v
| .Pc v => .Ly (v * ratio PARSEC_METERS LY_METERS)

def SpatialUnit.pc : SpatialUnit → SpatialUnit
| .M v => .Pc (v / PARSEC_METERS)
| .RE v => .Pc (v * ratio R_EARTH_METERS PARSEC_METERS)
| .RO v => .Pc (v * ratio R_SUN_METERS PARSEC_METERS)
| .Au v => .Pc (v * ratio AU_METERS PARSEC_METERS)
| .Ly v => .Pc (v * ratio LY_METERS PARSEC_METERS)
| .Pc v => .Pc v

def SpatialUnit.raw : SpatialUnit → ℚ
| .M v | .RE v | .RO v | .Au v | .Ly v | .Pc v => v

def SpatialUnit.set : SpatialUnit → ℚ → SpatialUnit
| .M _, t => .M t
| .RE _, t => .RE t
| .RO _, t => .RO t
| .Au _, t => .Au t
| .Ly _, t => .Ly t
| .Pc _, t => .Pc t

def SpatialUnit.cnvInto (s other : SpatialUnit) : SpatialUnit :=
  match other with
  | .M _ => s.m
  | .RE _ => s.re
  | .RO _ => s.ro
  | .Au _ => s.au
  | .Ly _ => s.ly
  | .Pc _ => s.pc

def SpatialUnit.rank : SpatialUnit → Nat
| .M _ => 1
| .RE _ => 2
| .RO _ => 3
| .Au _ => 4
| .Ly _ => 5
| .Pc _ => 6

/-- unify: the greater-ranked side keeps its unit; the source's
greater branch dispatches on self's shape exactly like cnv_into. -/
def SpatialUnit.unify (a b : SpatialUnit) : SpatialUnit × SpatialUnit :=
  match compare a.rank b.rank with
  | .gt => (a, b.cnvInto a)
  | .lt => (a.cnvInto b, b)
  | .eq => (a, b)

/-- partial_cmp: unify, then compare the two same-shaped magnitudes;
the source's wildcard arm is unreachable because unify always returns
matching shapes. -/
def SpatialUnit.pcmp (a b : SpatialUnit) : Option Ordering :=
  match a.unify b with
  | (.M x, .M y) | (.RE x, .RE y) | (.RO x, .RO y)
  | (.Au x, .Au y) | (.Ly x, .Ly y) | (.Pc x, .Pc y) => some (qcmp x y)
  | _ => none

def SpatialUnit.seq (a b : SpatialUnit) : Bool := a.pcmp b == some .eq

/-- The derived le: partial_cmp is Less or Equal
(RangeInclusive::contains tests with le on both ends). -/
def SpatialUnit.sle (a b : SpatialUnit) : Bool :=
  match a.pcmp b with
  | some .lt | some .eq => true
  | _ => false

/-- The defo primitive-operand operators for SpatialUnit. -/
def spatialPrimCalc (f : ℚ → ℚ → ℚ) (s : SpatialUnit) (r : ℚ) : SpatialUnit :=
  s.set (f s.raw r)

/-- The defo quantity-by-quantity operators for SpatialUnit: the rhs is
converted into the lhs's shape, then the scalar operator is applied and
the result stored into a copy of the lhs. -/
def spatialQCalc (f : ℚ → ℚ → ℚ) (a b : SpatialUnit) : SpatialUnit :=
  a.set (f a.raw (b.cnvInto a).raw)

inductive SpatialContained
| VisibleDisk
| Arms
| Halo
deriving DecidableEq, Repr

/-- Megastructure::GR with its three inclusive ranges, each modelled as a
(start, end) pair. -/
structure Megastructure where
  visible_disk : SpatialUnit × SpatialUnit
  arms : SpatialUnit × SpatialUnit
  halo : SpatialUnit × SpatialUnit
deriving DecidableEq, Repr

/-- RangeInclusive::contains: start le item and item le end. -/
def rContains (r : SpatialUnit × SpatialUnit) (s : SpatialUnit) : Bool :=
  r.1.sle s && s.sle r.2

def Megastructure.contains (g : Megastructure) (s : SpatialUnit) :
    Option SpatialContained :=
  if rContains g.visible_disk s then some .VisibleDisk
  else if rContains g.arms s then some .Arms
  else if rContains g.halo s then some .Halo
  else none


/-- The Celsius-converted magnitude of a non-black-hole value (the
payload stored by the source's `rhs.cnv_into(&self)` when self is
Celsius-shaped); 0 is a dummy for the filtered-out black hole. -/
def Temperature.rawC (x : Temperature) : ℚ :=
  match (x.c).raw with
  | some v => v
  | none => 0

/-! ## Claim theorems -/

/-- C6: NeutronStar compares strictly greater than WhiteDwarf and
WhiteDwarf strictly less than NeutronStar; each sentinel equals itself;
NeutronStar equals Kelvin 1,000,000 and WhiteDwarf equals Kelvin
100,000. -/
theorem sentinel_alias_ordering :
    Temperature.pcmp .N .D = some .gt ∧
    Temperature.pcmp .D .N = some .lt ∧
    Temperature.teq .N .N = true ∧
    Temperature.teq .D .D = true ∧
    Temperature.pcmp .N .N = some .eq ∧
    Temperature.pcmp .D .D = some .eq ∧
    Temperature.teq .N (.K 1000000) = true ∧
    Temperature.teq (.K 1000000) .N = true ∧
    Temperature.teq .D (.K 100000) = true ∧
    Temperature.teq (.K 100000) .D = true := by
  refine ⟨rfl, rfl, rfl, rfl, rfl, rfl, rfl, rfl, rfl, rfl⟩

/-- C5: unify returns both values tagged with the higher-ranked of the
two input units (each component being the conversion of the respective
operand into the winning unit), and operands that already share a unit
tag are returned unchanged. -/
theorem unify_picks_higher_rank :
    (∀ a b : Mass,
      (a.unify b).1.rank = max a.rank b.rank ∧
      (a.unify b).2.rank = max a.rank b.rank ∧
      (a.rank = b.rank → a.unify b = (a, b)) ∧
      a.unify b = (Mass.cnvLike (if b.rank ≤ a.rank then a else b) a,
                   Mass.cnvLike (if b.rank ≤ a.rank then a else b) b)) ∧
    (∀ a b : SpatialUnit,
      (a.unify b).1.rank = max a.rank b.rank ∧
      (a.unify b).2.rank = max a.rank b.rank ∧
      (a.rank = b.rank → a.unify b = (a, b)) ∧
      a.unify b = (SpatialUnit.cnvInto a (if b.rank ≤ a.rank then a else b),
                   SpatialUnit.cnvInto b (if b.rank ≤ a.rank then a else b))) := by
  constructor
  · intro a b
    cases a <;> cases b <;> refine ⟨rfl, rfl, fun h => ?_, rfl⟩ <;>
      first | rfl | simp [Mass.rank] at h
  · intro a b
    cases a <;> cases b <;> refine ⟨rfl, rfl, fun h => ?_, rfl⟩ <;>
      first | rfl | simp [SpatialUnit.rank] at h

/-- Witness for C5: same-unit operands, hypothesis discharged at a
concrete input. -/
theorem unify_picks_higher_rank_w :
    (Mass.Kg 1).rank = (Mass.Kg 2).rank ∧
    (Mass.Kg 1).unify (Mass.Kg 2) = (Mass.Kg 1, Mass.Kg 2) :=
  ⟨rfl, (unify_picks_higher_rank.1 (Mass.Kg 1) (Mass.Kg 2)).2.2.1 rfl⟩

/-- C9: set never changes the variant tag in any family, and on the
Temperature sentinels both set and every primitive-operand arithmetic
operator return the sentinel unchanged. -/
theorem set_preserves_tag_sentinels_stubborn :
    (∀ (m : Mass) (v : ℚ), (m.set v).rank = m.rank) ∧
    (∀ (s : SpatialUnit) (v : ℚ), (s.set v).rank = s.rank) ∧
    (∀ (t : Temperature) (v : ℚ), (t.set v).ctorIdx = t.ctorIdx) ∧
    (∀ t : Temperature, t.isSentinel = true →
      (∀ v : ℚ, t.set v = t) ∧
      (∀ (f : ℚ → ℚ → ℚ) (r : ℚ), tempPrimCalc f t r = t)) := by
  refine ⟨fun m v => by cases m <;> rfl,
          fun s v => by cases s <;> rfl,
          fun t v => by cases t <;> rfl,
          fun t ht => ?_⟩
  cases t
  case D => exact ⟨fun _ => rfl, fun _ _ => rfl⟩
  case N => exact ⟨fun _ => rfl, fun _ _ => rfl⟩
  case X => exact ⟨fun _ => rfl, fun _ _ => rfl⟩
  case K => exact absurd ht (by simp [Temperature.isSentinel])
  case C => exact absurd ht (by simp [Temperature.isSentinel])

/-- Witness for C9: the black hole sentinel, concrete set and addition. -/
theorem set_preserves_tag_sentinels_stubborn_w :
    Temperature.isSentinel .X = true ∧
    Temperature.set .X 5 = .X ∧
    tempPrimCalc (· + ·) .X 3 = .X :=
  ⟨rfl,
   (set_preserves_tag_sentinels_stubborn.2.2.2 .X rfl).1 5,
   (set_preserves_tag_sentinels_stubborn.2.2.2 .X rfl).2 (· + ·) 3⟩

/-- C10: Kelvin conversion clamps the magnitude at absolute zero and
Celsius conversion at -273.15 for every non-black-hole input; the black
hole passes through unchanged. -/
theorem kelvin_celsius_clamped :
    (∀ t : Temperature, t ≠ .X →
      ∃ v : ℚ, (t.k).raw = some v ∧ 0 ≤ v) ∧
    (∀ t : Temperature, t ≠ .X →
      ∃ v : ℚ, (t.c).raw = some v ∧ -K_C_DELTA ≤ v) ∧
    Temperature.k .X = .X ∧ Temperature.c .X = .X := by
  refine ⟨fun t ht => ?_, fun t ht => ?_, rfl, rfl⟩
  · cases t
    case X => exact absurd rfl ht
    case K v => exact ⟨max v 0, rfl, le_max_right v 0⟩
    case C v => exact ⟨max (v - K_C_DELTA) 0, rfl, le_max_right _ 0⟩
    case N => exact ⟨1000000, rfl, by norm_num⟩
    case D => exact ⟨100000, rfl, by norm_num⟩
  · cases t
    case X => exact absurd rfl ht
    case C v => exact ⟨max v (-K_C_DELTA), rfl, le_max_right v _⟩
    case K v =>
      refine ⟨max v 0 + K_C_DELTA, rfl, ?_⟩
      have h0 : (0 : ℚ) ≤ max v 0 := le_max_right v 0
      have hd : (0 : ℚ) ≤ K_C_DELTA := by norm_num [K_C_DELTA]
      linarith
    case N => exact ⟨1000000 - K_C_DELTA, rfl, by norm_num [K_C_DELTA]⟩
    case D => exact ⟨1000000 - K_C_DELTA, rfl, by norm_num [K_C_DELTA]⟩

/-- Witness for C10: a negative Kelvin magnitude is clamped to zero. -/
theorem kelvin_celsius_clamped_w :
    Temperature.K (-5) ≠ .X ∧
    (∃ v : ℚ, ((Temperature.K (-5)).k).raw = some v ∧ 0 ≤ v) :=
  ⟨by simp, kelvin_celsius_clamped.1 (.K (-5)) (by simp)⟩

/-- C3 counterexample: against a raw number, a BlackHole's ne is true
(the primitive ne is the un-overridden negation of eq) and partial_cmp
is Some Greater (NaN sorts above every number under total_cmp), where
the claim requires false and None. -/
theorem blackhole_prim_cex :
    Temperature.primNe .X 5 = true ∧
    Temperature.primPcmp .X 5 = some .gt :=
  ⟨rfl, rfl⟩

/-- C3 amended: whenever a BlackHole operand is present in a
Temperature-vs-Temperature comparison, eq, ne are false and partial_cmp
is None; against raw numbers eq is false, but ne is true and
partial_cmp is Some (Greater with the BlackHole on the left, Less with
it on the right). -/
theorem blackhole_unordered_amended :
    (∀ t : Temperature,
      Temperature.teq .X t = false ∧ Temperature.teq t .X = false ∧
      Temperature.tne .X t = false ∧ Temperature.tne t .X = false ∧
      Temperature.pcmp .X t = none ∧ Temperature.pcmp t .X = none) ∧
    (∀ n : ℚ,
      Temperature.primEq .X n = false ∧ Temperature.primNe .X n = true ∧
      Temperature.primPcmp .X n = some .gt ∧
      Temperature.primPcmpRev n .X = some .lt) := by
  constructor
  · intro t; cases t <;> exact ⟨rfl, rfl, rfl, rfl, rfl, rfl⟩
  · intro n; exact ⟨rfl, rfl, rfl, rfl⟩

/-- C7 counterexample: converting a negative Kelvin value to its own
Kelvin unit clamps the magnitude to absolute zero — the result is K 0,
not the original value, so the conversion is not a no-op. -/
theorem self_conversion_cex :
    Temperature.k (.K (-1)) = .K 0 ∧ Temperature.k (.K (-1)) ≠ .K (-1) := by
  constructor <;> norm_num [Temperature.k]

/-- C7 amended: converting a quantity to its own current unit variant is
an exact no-op in the Mass and SpatialLength families for every
magnitude, and in Temperature exactly when the magnitude is at or above
absolute zero (Kelvin at least 0, Celsius at least -273.15); below that
the magnitude is clamped up to absolute zero instead. -/
theorem self_conversion_amended :
    (∀ m : Mass, Mass.cnvLike m m = m) ∧
    (∀ s : SpatialUnit, s.cnvInto s = s) ∧
    (∀ v : ℚ, Temperature.k (.K v) = .K v ↔ 0 ≤ v) ∧
    (∀ v : ℚ, Temperature.c (.C v) = .C v ↔ -K_C_DELTA ≤ v) ∧
    (∀ v : ℚ, v < 0 → Temperature.k (.K v) = .K 0) ∧
    (∀ v : ℚ, v < -K_C_DELTA → Temperature.c (.C v) = .C (-K_C_DELTA)) := by
  refine ⟨fun m => by cases m <;> rfl,
          fun s => by cases s <;> rfl,
          fun v => ?_, fun v => ?_, fun v hv => ?_, fun v hv => ?_⟩
  · simp [Temperature.k, max_eq_left_iff]
  · simp [Temperature.c, max_eq_left_iff]
  · simp [Temperature.k, max_eq_right hv.le]
  · simp [Temperature.c, max_eq_right hv.le]

/-- Witness for C7 amended: a concrete below-range Kelvin magnitude is
clamped to absolute zero. -/
theorem self_conversion_amended_w :
    (-1 : ℚ) < 0 ∧ Temperature.k (.K (-1)) = .K 0 :=
  ⟨by norm_num, self_conversion_amended.2.2.2.2.1 (-1) (by norm_num)⟩

/-- C2 (code bug): the kg→M☉, g→M☉ and kg→M♃ conversions multiply by
the constant where the inverse conversion also multiplies, so the
round trips the claim names blow up by the square of the constant
instead of returning the original magnitude. -/
theorem mass_roundtrip_bug :
    (Mass.Kg 1).mo.kg = Mass.Kg (SOL_KG * SOL_KG) ∧ SOL_KG * SOL_KG ≠ 1 ∧
    (Mass.G 1).mo.g = Mass.G (kg_to_g SOL_KG * kg_to_g SOL_KG) ∧
      kg_to_g SOL_KG * kg_to_g SOL_KG ≠ 1 ∧
    (Mass.Kg 1).mj.kg = Mass.Kg (JUP_KG * JUP_KG) ∧ JUP_KG * JUP_KG ≠ 1 := by
  refine ⟨?_, by norm_num [SOL_KG], ?_, by norm_num [kg_to_g, SOL_KG], ?_,
    by norm_num [JUP_KG]⟩
  · norm_num [Mass.mo, Mass.kg]
  · norm_num [Mass.mo, Mass.g]
  · norm_num [Mass.mj, Mass.kg]

/-- C4 (code bug): converting the WhiteDwarf sentinel to Celsius yields
a Kelvin-tagged value built from the NeutronStar constant (the source's
D branch reuses K_NEUTRON and the subtraction keeps the Kelvin tag), not
a Celsius-tagged value carrying the WhiteDwarf constant; the NeutronStar
branch is Kelvin-tagged as well. -/
theorem sentinel_celsius_bug :
    Temperature.c .D = .K (1000000 - K_C_DELTA) ∧
    Temperature.c .N = .K (1000000 - K_C_DELTA) ∧
    Temperature.c .D ≠ .C (100000 + K_C_DELTA) := by
  refine ⟨rfl, rfl, ?_⟩
  intro h
  exact Temperature.noConfusion h

/-- C1 counterexample: adding 1 kg and 1000 g produces Kg 1001 — the rhs
magnitude is taken raw, without unification — where the claim's
unify-then-add recipe produces Kg 2. -/
theorem arith_no_unify_cex :
    massQCalc (· + ·) (Mass.Kg 1) (Mass.G 1000) = Mass.Kg 1001 ∧
    ((Mass.Kg 1).unify (Mass.G 1000)).1.set
        (((Mass.Kg 1).unify (Mass.G 1000)).1.raw +
         ((Mass.Kg 1).unify (Mass.G 1000)).2.raw) = Mass.Kg 2 ∧
    Mass.Kg (1001 : ℚ) ≠ Mass.Kg 2 := by
  refine ⟨?_, ?_, by norm_num⟩
  · norm_num [massQCalc, massPrimCalc, Mass.set, Mass.raw]
  · norm_num [Mass.unify, Mass.cnvLike, Mass.kg, Mass.rank, g_to_kg, Mass.raw,
      Mass.set, compare, compareOfLessAndEq]

/-- C1 amended: no binary operator unifies to the higher-ranked unit.
The result always carries the lhs's unit tag: for SpatialLength and
Temperature the rhs is first converted into the lhs's unit and the
scalar operator applied; for Mass the rhs's raw magnitude is used with
no conversion at all; a sentinel Temperature lhs is returned unchanged. -/
theorem arith_keeps_lhs_unit :
    (∀ (f : ℚ → ℚ → ℚ) (a b : Mass),
      (massQCalc f a b).rank = a.rank ∧
      (massQCalc f a b).raw = f a.raw b.raw) ∧
    (∀ (f : ℚ → ℚ → ℚ) (a b : SpatialUnit),
      (spatialQCalc f a b).rank = a.rank ∧
      (spatialQCalc f a b).raw = f a.raw (b.cnvInto a).raw) ∧
    (∀ (f : ℚ → ℚ → ℚ) (va : ℚ) (b : Temperature), b ≠ .X →
      tempQCalc f (.K va) b = .K (f va b.rawK)) ∧
    (∀ (f : ℚ → ℚ → ℚ) (va : ℚ) (b : Temperature), b ≠ .X →
      tempQCalc f (.C va) b = .C (f va b.rawC)) ∧
    (∀ (f : ℚ → ℚ → ℚ) (a b : Temperature), a.isSentinel = true →
      tempQCalc f a b = a) := by
  refine ⟨fun f a b => by cases a <;> exact ⟨rfl, rfl⟩,
          fun f a b => by cases a <;> exact ⟨rfl, rfl⟩,
          fun f va b hb => ?_, fun f va b hb => ?_, fun f a b ha => ?_⟩
  · cases b
    case X => exact absurd rfl hb
    all_goals rfl
  · cases b
    case X => exact absurd rfl hb
    all_goals rfl
  · cases a
    case K => exact absurd ha (by simp [Temperature.isSentinel])
    case C => exact absurd ha (by simp [Temperature.isSentinel])
    all_goals cases b <;> rfl

/-- Witness for C1 amended: concrete Kelvin addition and a sentinel lhs. -/
theorem arith_keeps_lhs_unit_w :
    (Temperature.K 2 : Temperature) ≠ .X ∧
    tempQCalc (· + ·) (.K 1) (.K 2) = .K (1 + (Temperature.K 2).rawK) ∧
    Temperature.isSentinel .N = true ∧
    tempQCalc (· + ·) .N (.K 2) = .N :=
  ⟨by simp, arith_keeps_lhs_unit.2.2.1 (· + ·) 1 (.K 2) (by simp),
   rfl, arith_keeps_lhs_unit.2.2.2.2 (· + ·) .N (.K 2) rfl⟩

/-! Helper evaluation lemmas for the galactic-range scenario. -/

theorem spatial_pcmp_ly_ly (a b : ℚ) :
    (SpatialUnit.Ly a).pcmp (.Ly b) = some (qcmp a b) := rfl

theorem spatial_pcmp_m_ly (a b : ℚ) :
    (SpatialUnit.M a).pcmp (.Ly b) = some (qcmp (ratio a LY_METERS) b) := rfl

theorem spatial_pcmp_ly_m (a b : ℚ) :
    (SpatialUnit.Ly a).pcmp (.M b) = some (qcmp a (ratio b LY_METERS)) := rfl

/-- C8: contains tests the three ranges in the fixed precedence
disk, arms, halo under the unification-based ordering, returning none
outside all three; instantiated on the spec's scenario, including a
point expressed in meters rather than light-years. -/
theorem galactic_contains_precedence :
    (∀ (g : Megastructure) (s : SpatialUnit),
      (g.contains s = some .VisibleDisk ↔ rContains g.visible_disk s = true) ∧
      (g.contains s = some .Arms ↔
        (rContains g.visible_disk s = false ∧ rContains g.arms s = true)) ∧
      (g.contains s = some .Halo ↔
        (rContains g.visible_disk s = false ∧ rContains g.arms s = false ∧
         rContains g.halo s = true)) ∧
      (g.contains s = none ↔
        (rContains g.visible_disk s = false ∧ rContains g.arms s = false ∧
         rContains g.halo s = false))) ∧
    (Megastructure.mk (.Ly 6, .Ly 12) (.Ly 15, .Ly 30) (.Ly 40, .Ly 42)).contains
        (.Ly 7) = some .VisibleDisk ∧
    (Megastructure.mk (.Ly 6, .Ly 12) (.Ly 15, .Ly 30) (.Ly 40, .Ly 42)).contains
        (.Ly (15 - 1/1000)) = none ∧
    (Megastructure.mk (.Ly 6, .Ly 12) (.Ly 15, .Ly 30) (.Ly 40, .Ly 42)).contains
        (.Ly (15 + 1/1000)) = some .Arms ∧
    (Megastructure.mk (.Ly 6, .Ly 12) (.Ly 15, .Ly 30) (.Ly 40, .Ly 42)).contains
        (.M (7 * LY_METERS)) = some .VisibleDisk := by
  refine ⟨fun g s => ?_, ?_, ?_, ?_, ?_⟩
  · cases h1 : rContains g.visible_disk s <;> cases h2 : rContains g.arms s <;>
      cases h3 : rContains g.halo s <;>
      simp [Megastructure.contains, h1, h2, h3]
  all_goals
    norm_num [Megastructure.contains, rContains, SpatialUnit.sle,
      spatial_pcmp_ly_ly, spatial_pcmp_m_ly, spatial_pcmp_ly_m, qcmp, ratio,
      LY_METERS]

end Astrometrics
